import Mathlib

/-!
Verification of the paper-processing pipeline (GenerateTXT.py, Finalize.py).

Shallow embedding of the two scripts of the repository:

* `GenerateTXT.py` — concurrent fan-out pipeline: per paper, eight "demand"
  prompts are sent to the DeepSeek completion API (`query_deepseek`, with
  bounded retry and exponential backoff), results are written one file per
  demand into a per-paper directory (`process_paper`), papers are processed
  on a thread pool gated by a semaphore (`main`).
* `Finalize.py` — report assembly: per-paper demand files are read back
  (`read_demand_files`), Mendeley metadata is looked up by title
  (`search_mendeley`), and a document with eight fixed subsections per paper
  plus a bibliography is built (`build_document`).

Network I/O is modelled by oracles: a function giving, for each attempt (or
each demand index, or each lookup), the outcome the remote side produced.
Real time (sleep durations) is recorded as data, never elapsed.
-/

namespace GenerateTXT

/-! ## Configuration constants (GenerateTXT.py lines 20-23) -/
/-- The main output folder: `OUTPUT_DIR = "deepseek_output"`. -/
def OUTPUT_DIR : String := "deepseek_output"

/-- The constant `MAX_WORKERS = 10`: the size of the paper-level thread pool
(`ThreadPoolExecutor(max_workers=MAX_WORKERS)`, line 304). -/
def MAX_WORKERS : Nat := 10

/-- The constant `RATE_LIMIT = 2`: seconds slept inside the semaphore before
each call. -/
def RATE_LIMIT : Nat := 2

/-- The initial slot count of the rate-limiter semaphore:
`rate_limiter = Semaphore(MAX_WORKERS)` (line 301). -/
def rateLimiterInit : Nat := MAX_WORKERS

/-- The worker-pool size passed to `ThreadPoolExecutor` (line 304). -/
def poolSize : Nat := MAX_WORKERS

/-- The retry bound of `query_deepseek` (`retries=3`, the default used by
every call site). -/
def RETRIES : Nat := 3

/-! ## The DeepSeek call: `query_deepseek` (lines 164-200)

One network attempt (`requests.post` plus reading the JSON body) is modelled
by an `AttemptOutcome`:

* `exn` — the attempt raised an exception (network error, and also the case
  where `resp.json()` or the `result["choices"][0]["message"]["content"]`
  access raises, which in the source happens inside the same `try`);
* `response status content` — an HTTP response with the given status code;
  `content` is `some t` when the JSON body exposes the generated text `t` at
  the fixed path and `none` when the body lacks the expected fields (in
  which case the source raises a `KeyError` inside the `try` and lands in
  the `except` branch).
-/
inductive AttemptOutcome where
  | exn : AttemptOutcome
  | response (status : Nat) (content : Option String) : AttemptOutcome
deriving DecidableEq, Repr

/-- How one attempt is classified by the `if`/`elif`/`else`/`except`
ladder of `query_deepseek` (lines 186-199):
status 200 with a well-formed body returns the text; status 402 returns
`None` at once; everything else (exceptions, other statuses, a 200 body
missing the expected fields) is transient and retried after a backoff. -/
inductive AttemptClass where
  | success (t : String) : AttemptClass
  | quota : AttemptClass
  | transient : AttemptClass
deriving DecidableEq, Repr

def AttemptOutcome.classify : AttemptOutcome → AttemptClass
  | .exn => .transient
  | .response s c =>
    if s = 200 then
      match c with
      | some t => .success t
      | none => .transient
    else if s = 402 then .quota
    else .transient

/-- The observable result of one `query_deepseek` call: the returned value
(`some text` or the failure marker `None`), the number of `requests.post`
attempts actually made, and the list of backoff sleeps (in seconds, in
order) performed by `time.sleep(2 ** attempt)`. -/
structure CallResult where
  result : Option String
  attemptsMade : Nat
  sleeps : List Nat
deriving DecidableEq, Repr

/-- The `for attempt in range(retries)` loop of `query_deepseek`.
`attempt` is the number of attempts already made (the Python loop index),
`fuel` the number of iterations left; `oracle n` is the outcome of the
`n`-th attempt. -/
def queryLoop (oracle : Nat → AttemptOutcome) : Nat → Nat → CallResult
  | attempt, 0 => ⟨none, attempt, []⟩
  | attempt, fuel + 1 =>
    match (oracle attempt).classify with
    | .success t => ⟨some t, attempt + 1, []⟩
    | .quota => ⟨none, attempt + 1, []⟩
    | .transient =>
      let r := queryLoop oracle (attempt + 1) fuel
      ⟨r.result, r.attemptsMade, 2 ^ attempt :: r.sleeps⟩

/-- The call `query_deepseek(api_key, prompt, paper_text, demand_number,
paper_title, retries)` — returns the response text or `None`; never raises
(the whole loop body is inside `try`/`except Exception`). -/
def query_deepseek (oracle : Nat → AttemptOutcome) (retries : Nat := RETRIES) :
    CallResult :=
  queryLoop oracle 0 retries

/-- An LLM client that always answers with status 402. -/
def oracle402 : Nat → AttemptOutcome := fun _ => AttemptOutcome.response 402 none

/-- A fake client failing transiently (network exception) on attempt 0, then
succeeding on attempt 1. -/
def oracleOneFailure : Nat → AttemptOutcome := fun n =>
  match n with
  | 0 => AttemptOutcome.exn
  | _ + 1 => AttemptOutcome.response 200 (some "ok")

/-- A fake client that always raises a network exception. -/
def oracleAlwaysExn : Nat → AttemptOutcome := fun _ => AttemptOutcome.exn

/-! ## The per-paper worker: `process_paper` (lines 203-251) -/
/-- The eight demand prompts (`DEMANDS`, lines 29-38). -/
def DEMANDS : List String := [
  "1. Explain the pricing model proposed in this paper in an understandable way. Include any key assumptions and economic principles.",
  "2. Write down all mathematical formulas used in the model, formatted so they can be copied as plain text (e.g., using LaTeX-like notation or plain text equations).",
  "3. Provide a step‑by‑step algorithm to perform a Monte Carlo simulation of this model.",
  "4. Write the Python code that implements the Monte Carlo simulation described in step 3.",
  "5. Suggest the best machine learning or AI algorithm to predict internet prices based on this model, and justify your choice.",
  "6. Write the Python code for that AI algorithm, including necessary data preprocessing steps.",
  "7. Identify a specific Kaggle dataset (or library) that could be used to train the AI model, and explain how it relates to this pricing model.",
  "8. Summarize the key findings of this paper in one paragraph, focusing on how the model differs from others of its time."]

/-- The outcome of the text-extraction step (`extract_text_from_pdf_file` /
`download_and_extract_text_from_url`): an exception with its message, or the
extracted text. -/
inductive ExtractionResult where
  | failure (msg : String) : ExtractionResult
  | text (t : String) : ExtractionResult
deriving DecidableEq, Repr

/-- Python `str.strip()`: drop leading and trailing whitespace. -/
def pyStrip (s : String) : String :=
  String.mk (((s.data.dropWhile Char.isWhitespace).reverse.dropWhile
    Char.isWhitespace).reverse)

/-- Sanitization
`safe_title = "".join(c for c in title if c.isalnum() or c in " ._-").strip()`
(line 226). `c.isalnum()` is modelled by `Char.isAlphanum` (they agree on the
ASCII range). -/
def sanitizeTitle (title : String) : String :=
  pyStrip (String.mk (title.data.filter fun c =>
    c.isAlphanum || c = ' ' || c = '.' || c = '_' || c = '-'))

/-- Formatting `f"{idx:02d}"`: decimal, zero-padded to width two. -/
def padTwo (n : Nat) : String :=
  if n < 10 then "0" ++ toString n else toString n

/-- The fixed per-demand result file name `f"demand_{idx:02d}.txt"`
(line 241; `Finalize.py` line 98 builds the same name when reading back). -/
def demandFileName (idx : Nat) : String :=
  "demand_" ++ padTwo idx ++ ".txt"

/-- The directory `paper_folder = os.path.join(OUTPUT_DIR, safe_title)`
(line 227). -/
def paperFolder (title : String) : String :=
  OUTPUT_DIR ++ "/" ++ sanitizeTitle title

/-- The path `out_file = os.path.join(paper_folder, f"demand_{idx:02d}.txt")`
(line 241). -/
def resultPath (title : String) (idx : Nat) : String :=
  paperFolder title ++ "/" ++ demandFileName idx

/-- The `"="*80` separator line of the result-file header. -/
def headerSep : String := String.mk (List.replicate 80 '=')

/-- The content written for a successful demand (lines 242-246): a header
with the paper title, the demand index and text, a separator, then the raw
response body. -/
def demandFileContent (title : String) (idx : Nat) (demand response : String) :
    String :=
  "Paper: " ++ title ++ "\n" ++ "Demand " ++ toString idx ++ ": " ++ demand ++
    "\n" ++ headerSep ++ "\n" ++ response

/-- The observable effects of one `process_paper` run: the log lines printed,
the directories created (`os.makedirs`), the demand indices for which
`query_deepseek` was called (in call order), and the files written as
(path, content) pairs. -/
structure WorkerTrace where
  logs : List String
  dirsCreated : List String
  calls : List Nat
  files : List (String × String)
deriving DecidableEq, Repr

/-- The `for idx, demand in enumerate(DEMANDS, 1)` loop (lines 231-249).
`oracle idx` is the value `query_deepseek` returned for demand `idx`
(`some response` or the failure marker `None`). Returns
(calls, files, logs). The semaphore acquire/release and the `RATE_LIMIT`
sleep around each call are modelled separately by `SemStep` below. -/
def runDemands (title : String) (oracle : Nat → Option String) :
    Nat → List String → List Nat × List (String × String) × List String
  | _, [] => ([], [], [])
  | idx, demand :: rest =>
    let r := runDemands title oracle (idx + 1) rest
    match oracle idx with
    | some response =>
      (idx :: r.1,
       (resultPath title idx, demandFileContent title idx demand response) :: r.2.1,
       ("  🔍 Demand " ++ toString idx ++ "...") ::
         ("    ✅ Demand " ++ toString idx ++ " saved.") :: r.2.2)
    | none =>
      (idx :: r.1,
       r.2.1,
       ("  🔍 Demand " ++ toString idx ++ "...") ::
         ("    ❌ Demand " ++ toString idx ++ " failed.") :: r.2.2)

/-- The worker `process_paper(paper_info, api_key, rate_limiter)` (lines 203-251).
The Python function returns `None` on every path; everything observable is
in the trace. Failed extraction and empty text return before any directory
creation or any demand call. -/
def process_paper (title : String) (extraction : ExtractionResult)
    (oracle : Nat → Option String) (demands : List String) : WorkerTrace :=
  let startLog := "\n📄 Starting: " ++ title
  match extraction with
  | .failure msg =>
    ⟨[startLog, "  ❌ Failed to extract text: " ++ msg], [], [], []⟩
  | .text t =>
    if pyStrip t = "" then
      ⟨[startLog, "  ⚠️ Empty text, skipping."], [], [], []⟩
    else
      let r := runDemands title oracle 1 demands
      ⟨[startLog] ++ r.2.2 ++ ["✅ Completed: " ++ title],
       [paperFolder title], r.1, r.2.1⟩

/-! ## The rate-limiter semaphore (lines 300-301, 233-238)

`rate_limiter = Semaphore(MAX_WORKERS)` is one object shared by every
`process_paper` thread; each demand call happens inside
`with rate_limiter:`. The semaphore is the only mutable state shared
across workers; we model it as a transition system whose state counts the
available slots and the threads currently inside the `with` block (hence
the completion calls currently in flight), with the counting-semaphore
acquire/release steps. The number of worker threads is NOT part of the
state: any number of concurrent acquirers is allowed, so the invariant
below holds for every pool size. -/
structure SemState where
  available : Nat
  inFlight : Nat
deriving DecidableEq, Repr

/-- Counting-semaphore steps: `acquire` blocks unless a slot is free;
`release` happens when a `with rate_limiter:` block exits. -/
inductive SemStep : SemState → SemState → Prop where
  | acquire (a f : Nat) (h : 0 < a) : SemStep ⟨a, f⟩ ⟨a - 1, f + 1⟩
  | release (a f : Nat) (h : 0 < f) : SemStep ⟨a, f⟩ ⟨a + 1, f - 1⟩

/-- States reachable from the initial semaphore state
`Semaphore(MAX_WORKERS)` with no call in flight. -/
inductive SemReachable : SemState → Prop where
  | init : SemReachable ⟨rateLimiterInit, 0⟩
  | step {s s' : SemState} : SemReachable s → SemStep s s' → SemReachable s'

/-! ## The orchestrator: `main` (lines 256-320)

`main` submits one `process_paper` task per paper to the pool and waits on
every future with `as_completed` (lines 304-315). `process_paper` returns
Python `None` on every path, so a future carries no outcome value: the only
information `future.result()` yields is whether the task raised. The
monitor loop prints `"Error in paper processing: …"` per raised task; the
closing output (lines 317-320) is a fixed banner. -/
/-- The value of one future as seen by `future.result()`: `none` when the
task returned normally (always with value `None`), `some msg` when it
raised. -/
def collectFutureErrors (futures : List (Option String)) : List String :=
  futures.filterMap fun e =>
    e.map fun msg => "Error in paper processing: " ++ msg

/-- The static closing banner of `main` (lines 317-320), independent of
every per-paper outcome. -/
def finalBanner : List String :=
  ["\n" ++ String.mk (List.replicate 70 '='),
   "ALL DONE! Results are in folder: " ++ OUTPUT_DIR,
   "Each paper has its own subfolder with demand_01.txt ... demand_08.txt",
   String.mk (List.replicate 70 '=')]

/-- The observable output of one pipeline run: the per-paper worker traces,
the error lines printed by the future-monitor loop, and the closing
banner. -/
structure RunResult where
  traces : List WorkerTrace
  errorLines : List String
  banner : List String
deriving DecidableEq, Repr

/-- The fan-out/fan-in of `main` (lines 304-320): one `process_paper` task
per paper, each with its own extraction result and per-demand outcomes
(`oracle title`). Workers share no mutable state except the semaphore
(modelled by `SemStep`), so the interleaving does not affect any per-paper
trace; the embedded workers are total functions, so no future raises. -/
def runPipeline (papers : List (String × ExtractionResult))
    (oracle : String → Nat → Option String) : RunResult :=
  { traces := papers.map fun p => process_paper p.1 p.2 (oracle p.1) DEMANDS
    errorLines := collectFutureErrors (papers.map fun _ => none)
    banner := finalBanner }

/-- A deterministic fake client for the C7 runs. -/
def c7Oracle : String → Nat → Option String := fun _ _ => some "resp"

end GenerateTXT

namespace Finalize

/-! ## Finalize.py: reading demand files back (lines 94-105) -/
/-- The function `read_demand_files(paper_path)` (lines 94-105): `fs name`
is the content of file `name` in the paper directory (`none` when the file
does not exist). Builds the dict `{1: content, …, 8: content}` — here an
association list in insertion order 1..8 — where a missing file `i` maps to
the placeholder `"*Missing demand i*"`. The file name `f"demand_{i:02d}.txt"`
(line 98) is the same formula `GenerateTXT.py` uses when writing. -/
def read_demand_files (fs : String → Option String) : List (Nat × String) :=
  (List.range 8).map fun j =>
    (j + 1,
     match fs (GenerateTXT.demandFileName (j + 1)) with
     | some content => content
     | none => "*Missing demand " ++ toString (j + 1) ++ "*")

/-- The fixed subsection labels of `build_document` (lines 219-228); the
loop only ever looks up keys 1..8, other keys fall to a dummy. -/
def subsectionLabel : Nat → String
  | 1 => "a) Explanation of the pricing model proposed in this paper"
  | 2 => "b) Mathematical formulas"
  | 3 => "c) Step‑by‑step algorithm to perform a Monte Carlo simulation"
  | 4 => "d) Python code that implements the Monte Carlo simulation"
  | 5 => "e) Best machine learning or AI algorithm to predict internet prices based on this model"
  | 6 => "f) Python code for that AI algorithm"
  | 7 => "g) Kaggle dataset (or library) that could be used to train the AI model"
  | 8 => "h) Key findings"
  | _ => ""

/-- How a subsection body is rendered (lines 274-277): demands 4 and 6 as
code blocks, the others as plain paragraphs. -/
inductive BlockKind where
  | codeBlock : BlockKind
  | paragraph : BlockKind
deriving DecidableEq, Repr

/-- The per-paper subsection loop of `build_document` (lines 271-277):
`for i in range(1, 9)` emits the fixed heading and the demand content
(`demands[i]`; the `getD ""` default is never reached because
`read_demand_files` populates every key 1..8, see the C10 theorem). -/
def paperSubsections (fs : String → Option String) :
    List (String × BlockKind × String) :=
  let demands := read_demand_files fs
  (List.range 8).map fun j =>
    (subsectionLabel (j + 1),
     if j + 1 = 4 ∨ j + 1 = 6 then BlockKind.codeBlock else BlockKind.paragraph,
     (demands.lookup (j + 1)).getD "")

/-! ## Finalize.py: Mendeley metadata lookup and citations -/
/-- One author record of a Mendeley document: both name fields optional
(`'first_name' in a`, `'last_name' in a`, lines 123-127). -/
structure MendeleyAuthor where
  first_name : Option String
  last_name : Option String
deriving DecidableEq, Repr

/-- One Mendeley document record; every field the script reads is optional
(`doc.get(…)` / `'authors' in doc`). The `year` field is modelled as its
string rendering. -/
structure MendeleyDoc where
  title : Option String
  authors : Option (List MendeleyAuthor)
  year : Option String
  source : Option String
  journal : Option String
deriving DecidableEq, Repr

/-- The outcome of the metadata HTTP lookup: `exn` when the request,
`raise_for_status` or the JSON decoding raised (silently swallowed by the
`except` at lines 134-136), or the decoded JSON list. -/
inductive LookupOutcome where
  | exn : LookupOutcome
  | ok (data : List MendeleyDoc) : LookupOutcome
deriving DecidableEq, Repr

/-- The metadata record `search_mendeley` returns on success. -/
structure PaperMeta where
  title : String
  authors : List String
  year : String
  journal : String
deriving DecidableEq, Repr

/-- Python `a or b` on strings: `a` unless it is falsy (empty). -/
def pyOr (a b : String) : String := if a = "" then b else a

/-- One pass of the author loop (lines 123-127): full name when both parts
exist, last name alone otherwise, skipped when no last name. -/
def formatAuthor (a : MendeleyAuthor) : Option String :=
  match a.first_name, a.last_name with
  | some f, some l => some (f ++ " " ++ l)
  | none, some l => some l
  | _, none => none

/-- The lookup `search_mendeley(title)` (lines 110-137): the query is sent
with `limit=1`; on a non-empty result list the FIRST record wins
(`doc = data[0]`); an empty list, or any exception, yields `None`. -/
def search_mendeley (queryTitle : String) (api : LookupOutcome) :
    Option PaperMeta :=
  match api with
  | .exn => none
  | .ok [] => none
  | .ok (doc :: _) =>
    some
      { title := doc.title.getD queryTitle
        authors := (doc.authors.getD []).filterMap formatAuthor
        year := doc.year.getD ""
        journal := pyOr (doc.source.getD "") (pyOr (doc.journal.getD "") "") }

/-- The citation string `build_document` derives for one paper
(lines 253-262): the authors/year/title/journal format when the metadata
record exists and has a non-empty author list
(`if meta and meta.get('authors')`), the "not found" stub containing the
paper folder title otherwise. -/
def citationFor (paperTitle : String) (meta : Option PaperMeta) : String :=
  match meta with
  | some m =>
    if m.authors.isEmpty then paperTitle ++ " (metadata not found)."
    else
      String.intercalate ", " m.authors ++ " (" ++ m.year ++ "). " ++
        m.title ++ ". " ++ m.journal ++ "."
  | none => paperTitle ++ " (metadata not found)."

end Finalize

namespace GenerateTXT

/-! ### Basic lemmas about the retry loop -/
lemma classify_success_elim (o : AttemptOutcome) (t : String)
    (h : o.classify = AttemptClass.success t) :
    o = AttemptOutcome.response 200 (some t) := by
  cases o with
  | exn => simp [AttemptOutcome.classify] at h
  | response s c =>
    by_cases hs : s = 200
    · subst hs
      cases c with
      | none => simp [AttemptOutcome.classify] at h
      | some u =>
        simp only [AttemptOutcome.classify, if_pos] at h
        simp only [AttemptClass.success.injEq] at h
        rw [h]
    · by_cases hq : s = 402
      · simp [AttemptOutcome.classify, hs, hq] at h
      · simp [AttemptOutcome.classify, hs, hq] at h

lemma queryLoop_attempt_le (oracle : Nat → AttemptOutcome) :
    ∀ fuel attempt, (queryLoop oracle attempt fuel).attemptsMade ≤ attempt + fuel := by
  intro fuel
  induction fuel with
  | zero => intro attempt; simp [queryLoop]
  | succ n ih =>
    intro attempt
    simp only [queryLoop]
    cases h : (oracle attempt).classify with
    | success t => simp
    | quota => simp
    | transient =>
      simp only
      have := ih (attempt + 1)
      omega

/-- If every attempt in `[attempt, attempt+fuel)` is transient, the loop
exhausts its fuel: it returns `none` after making all `fuel` remaining
attempts, sleeping `2^i` seconds after the `i`-th attempt. -/
lemma queryLoop_all_transient (oracle : Nat → AttemptOutcome) :
    ∀ fuel attempt,
      (∀ i, attempt ≤ i → i < attempt + fuel →
        (oracle i).classify = AttemptClass.transient) →
      queryLoop oracle attempt fuel =
        ⟨none, attempt + fuel, (List.range fuel).map fun j => 2 ^ (attempt + j)⟩ := by
  intro fuel
  induction fuel with
  | zero => intro attempt _; simp [queryLoop]
  | succ n ih =>
    intro attempt h
    have h0 : (oracle attempt).classify = AttemptClass.transient :=
      h attempt le_rfl (by omega)
    simp only [queryLoop, h0]
    have hrec := ih (attempt + 1) (fun i h1 h2 => h i (by omega) (by omega))
    rw [hrec]
    simp only [CallResult.mk.injEq]
    refine ⟨trivial, by omega, ?_⟩
    rw [List.range_succ_eq_map, List.map_cons, List.map_map]
    congr 1
    norm_num
    intro a ha
    omega

/-- If the first `k` attempts (from `attempt`) are transient and attempt
`attempt+k` succeeds with text `t`, with `k < fuel`, the loop returns
`some t` after `k+1` further attempts with sleeps `2^attempt, …,
2^(attempt+k-1)`. -/
lemma queryLoop_succeeds_after (oracle : Nat → AttemptOutcome) :
    ∀ k fuel attempt (t : String),
      k < fuel →
      (∀ i, attempt ≤ i → i < attempt + k →
        (oracle i).classify = AttemptClass.transient) →
      (oracle (attempt + k)).classify = AttemptClass.success t →
      queryLoop oracle attempt fuel =
        ⟨some t, attempt + k + 1, (List.range k).map fun j => 2 ^ (attempt + j)⟩ := by
  intro k
  induction k with
  | zero =>
    intro fuel attempt t hk _ hsucc
    obtain ⟨m, rfl⟩ : ∃ m, fuel = m + 1 := ⟨fuel - 1, by omega⟩
    simp only [Nat.add_zero] at hsucc
    simp [queryLoop, hsucc]
  | succ n ih =>
    intro fuel attempt t hk htrans hsucc
    obtain ⟨m, rfl⟩ : ∃ m, fuel = m + 1 := ⟨fuel - 1, by omega⟩
    have h0 : (oracle attempt).classify = AttemptClass.transient :=
      htrans attempt le_rfl (by omega)
    simp only [queryLoop, h0]
    have hrec := ih m (attempt + 1) t (by omega)
      (fun i h1 h2 => htrans i (by omega) (by omega))
      (by have : attempt + 1 + n = attempt + (n + 1) := by omega
          rw [this]; exact hsucc)
    rw [hrec]
    simp only [CallResult.mk.injEq]
    refine ⟨trivial, by omega, ?_⟩
    rw [List.range_succ_eq_map, List.map_cons, List.map_map]
    congr 1
    norm_num
    intro a ha
    omega

/-- Characterization of the result: it is `none` or the text of some
successful attempt strictly before `attempt + fuel`. -/
lemma queryLoop_result_characterization (oracle : Nat → AttemptOutcome) :
    ∀ fuel attempt,
      (queryLoop oracle attempt fuel).result = none ∨
      ∃ k t, attempt ≤ k ∧ k < attempt + fuel ∧
        oracle k = AttemptOutcome.response 200 (some t) ∧
        (queryLoop oracle attempt fuel).result = some t := by
  intro fuel
  induction fuel with
  | zero => intro attempt; left; simp [queryLoop]
  | succ n ih =>
    intro attempt
    simp only [queryLoop]
    cases h : (oracle attempt).classify with
    | success t =>
      right
      exact ⟨attempt, t, le_rfl, by omega, classify_success_elim _ _ h, rfl⟩
    | quota => left; rfl
    | transient =>
      simp only
      rcases ih (attempt + 1) with hnone | ⟨k, t, h1, h2, h3, h4⟩
      · left; exact hnone
      · right; exact ⟨k, t, by omega, by omega, h3, h4⟩

/-- A `Chain'` relation holds on `(List.range k).map f` as soon as it holds
between `f i` and `f (i+1)` for every `i`. -/
lemma chain'_map_range (f : Nat → Nat) (R : Nat → Nat → Prop)
    (hf : ∀ i, R (f i) (f (i + 1))) (k : Nat) :
    ((List.range k).map f).Chain' R := by
  rw [List.chain'_map]
  cases k with
  | zero => simp
  | succ n =>
    rw [List.chain'_range_succ]
    intro m _
    exact hf m

lemma sleeps_chain_double (k : Nat) :
    (((List.range k).map fun j => 2 ^ j : List Nat)).Chain' (fun a b => b = 2 * a) := by
  apply chain'_map_range
  intro i
  rw [pow_succ]
  ring

lemma sleeps_chain_lt (k : Nat) :
    (((List.range k).map fun j => 2 ^ j : List Nat)).Chain' (fun a b => a < b) := by
  apply chain'_map_range
  intro i
  exact Nat.pow_lt_pow_right (by norm_num) (by omega)

/-! ## Claim theorems about `query_deepseek` -/
/-- Claim C2 — a call whose first attempt receives the quota-exhausted status
402 makes exactly one request attempt, performs no backoff sleep, and
immediately returns the failure marker `None`
(`elif resp.status_code == 402: … return None`, lines 191-193). -/
theorem c2_quota_short_circuit (oracle : Nat → AttemptOutcome)
    (retries : Nat) (c : Option String)
    (hr : 0 < retries) (h0 : oracle 0 = AttemptOutcome.response 402 c) :
    query_deepseek oracle retries = ⟨none, 1, []⟩ := by
  obtain ⟨m, rfl⟩ : ∃ m, retries = m + 1 := ⟨retries - 1, by omega⟩
  unfold query_deepseek
  simp [queryLoop, h0, AttemptOutcome.classify]

theorem c2_quota_short_circuit_witness :
    query_deepseek oracle402 RETRIES = ⟨none, 1, []⟩ :=
  c2_quota_short_circuit oracle402 RETRIES none (by decide) rfl

/-- Claim C3 — (success part) if the first `k` attempts fail transiently with
`k` strictly below the retry bound and attempt `k+1` succeeds with text `t`,
the call returns `some t` after exactly `k+1` attempts, and the backoff
sleeps between consecutive attempts are `2^0, 2^1, …, 2^(k-1)`: they double
each time starting from the base delay 1, hence are strictly increasing.
(Failure part) if all attempts within the retry bound fail transiently, the
call returns the failure marker `None`. -/
theorem c3_transient_retry_backoff (oracle oracle2 : Nat → AttemptOutcome)
    (retries k : Nat) (t : String)
    (hk : k < retries)
    (htrans : ∀ i, i < k → (oracle i).classify = AttemptClass.transient)
    (hsucc : oracle k = AttemptOutcome.response 200 (some t))
    (hfail : ∀ i, i < retries → (oracle2 i).classify = AttemptClass.transient) :
    ((query_deepseek oracle retries).result = some t ∧
     (query_deepseek oracle retries).attemptsMade = k + 1 ∧
     (query_deepseek oracle retries).sleeps = ((List.range k).map fun j => 2 ^ j) ∧
     (query_deepseek oracle retries).sleeps.Chain' (fun a b => b = 2 * a) ∧
     (query_deepseek oracle retries).sleeps.Chain' (fun a b => a < b) ∧
     (0 < k → (query_deepseek oracle retries).sleeps.head? = some 1)) ∧
    (query_deepseek oracle2 retries).result = none := by
  have hsucc' : (oracle (0 + k)).classify = AttemptClass.success t := by
    rw [Nat.zero_add, hsucc]
    simp [AttemptOutcome.classify]
  have hmain := queryLoop_succeeds_after oracle k retries 0 t hk
    (fun i h1 h2 => htrans i (by omega)) hsucc'
  have hfuel := queryLoop_all_transient oracle2 retries 0
    (fun i h1 h2 => hfail i (by omega))
  have hsleeps : (query_deepseek oracle retries).sleeps =
      ((List.range k).map fun j => 2 ^ j) := by
    unfold query_deepseek
    rw [hmain]
    simp
  refine ⟨⟨?_, ?_, hsleeps, ?_, ?_, ?_⟩, ?_⟩
  · unfold query_deepseek; rw [hmain]
  · unfold query_deepseek; rw [hmain]; simp
  · rw [hsleeps]; exact sleeps_chain_double k
  · rw [hsleeps]; exact sleeps_chain_lt k
  · intro hkpos
    rw [hsleeps]
    obtain ⟨m, rfl⟩ : ∃ m, k = m + 1 := ⟨k - 1, by omega⟩
    rw [List.range_succ_eq_map]
    simp
  · unfold query_deepseek; rw [hfuel]

theorem c3_transient_retry_backoff_witness :
    ((query_deepseek oracleOneFailure RETRIES).result = some "ok" ∧
     (query_deepseek oracleOneFailure RETRIES).attemptsMade = 1 + 1 ∧
     (query_deepseek oracleOneFailure RETRIES).sleeps =
       ((List.range 1).map fun j => 2 ^ j) ∧
     (query_deepseek oracleOneFailure RETRIES).sleeps.Chain' (fun a b => b = 2 * a) ∧
     (query_deepseek oracleOneFailure RETRIES).sleeps.Chain' (fun a b => a < b) ∧
     (0 < 1 → (query_deepseek oracleOneFailure RETRIES).sleeps.head? = some 1)) ∧
    (query_deepseek oracleAlwaysExn RETRIES).result = none :=
  c3_transient_retry_backoff oracleOneFailure oracleAlwaysExn RETRIES 1 "ok"
    (by decide)
    (by intro i hi
        have : i = 0 := by omega
        subst this
        rfl)
    rfl
    (fun i _ => rfl)

/-- Rewriting step for index-shifted ranges. -/
lemma range_map_add_succ (n idx : Nat) :
    (List.range (n + 1)).map (· + idx) = idx :: (List.range n).map (· + (idx + 1)) := by
  rw [List.range_succ_eq_map, List.map_cons, List.map_map]
  congr 1
  · omega
  · simp only [List.map_inj_left, Function.comp_apply]
    intro a _
    omega

/-- The loop calls `query_deepseek` once per demand, at indices
`idx, idx+1, …` in order, regardless of the outcomes. -/
lemma runDemands_calls (title : String) (oracle : Nat → Option String) :
    ∀ (ds : List String) (idx : Nat),
      (runDemands title oracle idx ds).1 = (List.range ds.length).map (· + idx) := by
  intro ds
  induction ds with
  | nil => intro idx; simp [runDemands]
  | cons d rest ih =>
    intro idx
    rw [List.length_cons, range_map_add_succ]
    cases h : oracle idx with
    | some r => simp only [runDemands, h]; rw [ih (idx + 1)]
    | none => simp only [runDemands, h]; rw [ih (idx + 1)]

/-- The paths of the files written by the loop are exactly the fixed
per-demand paths of the successful indices. -/
lemma runDemands_files_fst (title : String) (oracle : Nat → Option String) :
    ∀ (ds : List String) (idx : Nat),
      (runDemands title oracle idx ds).2.1.map Prod.fst =
        (((List.range ds.length).map (· + idx)).filter fun i =>
          (oracle i).isSome).map (resultPath title) := by
  intro ds
  induction ds with
  | nil => intro idx; simp [runDemands]
  | cons d rest ih =>
    intro idx
    rw [List.length_cons, range_map_add_succ]
    cases h : oracle idx with
    | some r =>
      simp only [runDemands, h, List.filter_cons, Option.isSome_some, List.map_cons]
      rw [ih (idx + 1)]
      simp
    | none =>
      simp only [runDemands, h, List.filter_cons, Option.isSome_none]
      rw [ih (idx + 1)]
      simp

lemma semReachable_conservation {s : SemState} (h : SemReachable s) :
    s.available + s.inFlight = rateLimiterInit := by
  induction h with
  | init => simp
  | step _ hstep ih =>
    cases hstep with
    | acquire a f ha => simp at ih ⊢; omega
    | release a f hf => simp at ih ⊢; omega

/-- Claim C9 — query_deepseek is total at its interface: whatever the
network produces on each attempt (exception, arbitrary status code, or a
200 response whose body lacks the expected fields), the call makes at most
`retries` attempts and returns either the failure marker `None` or the text
of some genuinely successful attempt; no exception escapes (every attempt's
body sits inside `try`/`except Exception`). -/
theorem c9_interface_totality (oracle : Nat → AttemptOutcome) (retries : Nat) :
    (query_deepseek oracle retries).attemptsMade ≤ retries ∧
    ((query_deepseek oracle retries).result = none ∨
      ∃ k t, k < retries ∧ oracle k = AttemptOutcome.response 200 (some t) ∧
        (query_deepseek oracle retries).result = some t) := by
  constructor
  · have h := queryLoop_attempt_le oracle retries 0
    unfold query_deepseek
    omega
  · rcases queryLoop_result_characterization oracle retries 0 with h | ⟨k, t, _, h2, h3, h4⟩
    · left; exact h
    · right; exact ⟨k, t, by omega, h3, h4⟩

/-- Cancellation of a common prefix of two string concatenations. -/
lemma string_append_cancel_left (a b c : String) (h : a ++ b = a ++ c) : b = c := by
  have hd : (a ++ b).data = (a ++ c).data := congrArg String.data h
  simp only [String.data_append] at hd
  exact String.ext (List.append_cancel_left hd)

/-- The eight per-demand file names are pairwise distinct. -/
lemma demandFileName_inj_on :
    ∀ x ∈ (List.range 8).map (· + 1), ∀ y ∈ (List.range 8).map (· + 1),
      demandFileName x = demandFileName y → x = y := by decide

/-- Claim C1 (counterexample) — the rate-limiter bound is not independent of
the paper-level worker-pool size: `Semaphore(MAX_WORKERS)` (line 301) and
`ThreadPoolExecutor(max_workers=MAX_WORKERS)` (line 304) use the very same
constant, so the two bounds necessarily coincide (both are 10) and changing
the pool size changes the rate-limiter bound with it. -/
theorem c1_counterexample :
    rateLimiterInit = poolSize ∧ poolSize = MAX_WORKERS ∧ rateLimiterInit = 10 :=
  ⟨rfl, rfl, rfl⟩

/-- Claim C1 (amended) — the rate-limiter bound is global and sound: in
every reachable state of the single shared semaphore — for any number of
concurrently acquiring worker threads — at most `rateLimiterInit`
completion calls are in flight; but that bound is the same `MAX_WORKERS`
constant as the pool size, not an independently configured maximum. -/
theorem c1_global_inflight_bound {s : SemState} (h : SemReachable s) :
    s.inFlight ≤ rateLimiterInit ∧ rateLimiterInit = MAX_WORKERS := by
  have hc := semReachable_conservation h
  exact ⟨by omega, rfl⟩

theorem c1_global_inflight_bound_witness :
    (SemState.mk 9 1).inFlight ≤ rateLimiterInit ∧ rateLimiterInit = MAX_WORKERS :=
  c1_global_inflight_bound
    (SemReachable.step SemReachable.init (SemStep.acquire 10 0 (by decide)))

/-- Claim C4 — for a paper whose text extraction fails, or whose extracted
text is empty or whitespace-only, `process_paper` issues zero demand calls,
creates no per-paper output directory and writes no result files; its whole
observable behaviour is the skip log line by which the script classifies
the paper before returning early. -/
theorem c4_skipped_paper_no_effects (title msg t : String)
    (oracle : Nat → Option String) (h : pyStrip t = "") :
    process_paper title (ExtractionResult.failure msg) oracle DEMANDS =
      ⟨["\n📄 Starting: " ++ title, "  ❌ Failed to extract text: " ++ msg],
        [], [], []⟩ ∧
    process_paper title (ExtractionResult.text t) oracle DEMANDS =
      ⟨["\n📄 Starting: " ++ title, "  ⚠️ Empty text, skipping."],
        [], [], []⟩ := by
  constructor
  · rfl
  · simp [process_paper, h]

theorem c4_skipped_paper_no_effects_witness :
    process_paper "Paper A" (ExtractionResult.failure "bad pdf")
        (fun _ => some "resp") DEMANDS =
      ⟨["\n📄 Starting: " ++ "Paper A",
        "  ❌ Failed to extract text: " ++ "bad pdf"], [], [], []⟩ ∧
    process_paper "Paper A" (ExtractionResult.text "   ")
        (fun _ => some "resp") DEMANDS =
      ⟨["\n📄 Starting: " ++ "Paper A", "  ⚠️ Empty text, skipping."],
        [], [], []⟩ :=
  c4_skipped_paper_no_effects "Paper A" "bad pdf" "   "
    (fun _ => some "resp") (by decide)

/-- Claim C5 — for a paper with non-empty extracted text the worker calls
the LLM client for every demand index 1..8, in strictly increasing order,
exactly once each, and this holds for EVERY outcome oracle: a failed call
(`None`) never aborts or skips the remaining demands, and since
`process_paper` is a total function of the outcomes, no per-call failure
propagates as a run-aborting signal. -/
theorem c5_all_demands_attempted_in_order (title t : String)
    (oracle : Nat → Option String) (h : ¬ pyStrip t = "") :
    (process_paper title (ExtractionResult.text t) oracle DEMANDS).calls =
      [1, 2, 3, 4, 5, 6, 7, 8] := by
  simp only [process_paper, if_neg h]
  rw [runDemands_calls]
  rfl

theorem c5_all_demands_attempted_in_order_witness :
    (process_paper "T" (ExtractionResult.text "x") (fun _ => none)
        DEMANDS).calls = [1, 2, 3, 4, 5, 6, 7, 8] :=
  c5_all_demands_attempted_in_order "T" "x" (fun _ => none) (by decide)

/-- Claim C6 (counterexample) — per-paper directory naming is NOT
collision-free for distinct titles: sanitization only strips characters, so
the distinct titles "a" and "a!" yield the same directory name and hence
the same per-paper output directory. -/
theorem c6_counterexample :
    ("a" : String) ≠ "a!" ∧ sanitizeTitle "a" = sanitizeTitle "a!" ∧
      paperFolder "a" = paperFolder "a!" :=
  ⟨by decide, by decide, by decide⟩

/-- Claim C6 (amended) — output naming is deterministic and fixed by the
pair (title, demand index): a run over non-empty text writes exactly the
files `deepseek_output/<sanitized title>/demand_<index>.txt` for the
successful indices, each path at most once (no duplicates, so re-running
the same paper/demand set overwrites the same files), and the per-demand
file names are the fixed zero-padded indices `demand_01.txt` …
`demand_08.txt`; distinct titles, however, may collide after sanitization
(see the counterexample). -/
theorem c6_deterministic_idempotent_naming (title t : String)
    (oracle : Nat → Option String) (h : ¬ pyStrip t = "") :
    ((process_paper title (ExtractionResult.text t) oracle DEMANDS).files.map
        Prod.fst =
      (((List.range 8).map (· + 1)).filter fun i => (oracle i).isSome).map
        (resultPath title)) ∧
    ((process_paper title (ExtractionResult.text t) oracle DEMANDS).files.map
        Prod.fst).Nodup ∧
    ((List.range 8).map fun j => demandFileName (j + 1)) =
      ["demand_01.txt", "demand_02.txt", "demand_03.txt", "demand_04.txt",
       "demand_05.txt", "demand_06.txt", "demand_07.txt", "demand_08.txt"] := by
  have hfiles :
      (process_paper title (ExtractionResult.text t) oracle DEMANDS).files.map
          Prod.fst =
        (((List.range 8).map (· + 1)).filter fun i => (oracle i).isSome).map
          (resultPath title) := by
    simp only [process_paper, if_neg h]
    rw [runDemands_files_fst]
    rfl
  refine ⟨hfiles, ?_, by decide⟩
  rw [hfiles]
  apply List.Nodup.map_on
  · intro x hx y hy hxy
    have hx8 : x ∈ (List.range 8).map (· + 1) := List.mem_of_mem_filter hx
    have hy8 : y ∈ (List.range 8).map (· + 1) := List.mem_of_mem_filter hy
    have h1 : paperFolder title ++ ("/" ++ demandFileName x) =
        paperFolder title ++ ("/" ++ demandFileName y) := by
      simpa [resultPath, String.append_assoc] using hxy
    have h2 : ("/" : String) ++ demandFileName x = "/" ++ demandFileName y :=
      string_append_cancel_left _ _ _ h1
    exact demandFileName_inj_on x hx8 y hy8
      (string_append_cancel_left _ _ _ h2)
  · exact List.Nodup.filter _ (by decide)

/-- Claim C7 (counterexample) — workers report no outcome and the
orchestrator aggregates no counts: a run whose only paper is skipped
(empty text, zero demand calls) and a run whose only paper completes all
eight demands are indistinguishable in everything the orchestrator outputs
(identical error lines and identical closing banner, with no
completed/skipped/failed counts anywhere). -/
theorem c7_counterexample :
    (runPipeline [("A", ExtractionResult.text "")] c7Oracle).traces.map
        WorkerTrace.calls = [[]] ∧
    (runPipeline [("A", ExtractionResult.text "economics")] c7Oracle).traces.map
        WorkerTrace.calls = [[1, 2, 3, 4, 5, 6, 7, 8]] ∧
    (runPipeline [("A", ExtractionResult.text "")] c7Oracle).errorLines =
      (runPipeline [("A", ExtractionResult.text "economics")] c7Oracle).errorLines ∧
    (runPipeline [("A", ExtractionResult.text "")] c7Oracle).banner =
      (runPipeline [("A", ExtractionResult.text "economics")] c7Oracle).banner := by
  refine ⟨by decide, ?_, rfl, rfl⟩
  have h : ¬ pyStrip "economics" = "" := by decide
  simp only [runPipeline, List.map_cons, List.map_nil]
  rw [show (process_paper "A" (ExtractionResult.text "economics")
    (c7Oracle "A") DEMANDS).calls = [1, 2, 3, 4, 5, 6, 7, 8] from
    c5_all_demands_attempted_in_order "A" "economics" (c7Oracle "A") h]

/-- Claim C7 (amended) — every submitted task is waited on (one trace per
paper) and an error line is printed only for a raised task, but no
per-paper outcome is reported upward (`process_paper` returns `None` on
every path) and nothing is aggregated: the error-line list of a run of
total workers is empty and the closing output is the fixed banner, whatever
the per-paper outcomes were. -/
theorem c7_no_outcome_aggregation (papers : List (String × ExtractionResult))
    (oracle : String → Nat → Option String) :
    (runPipeline papers oracle).traces.length = papers.length ∧
    (runPipeline papers oracle).errorLines = [] ∧
    (runPipeline papers oracle).banner = finalBanner := by
  refine ⟨?_, ?_, rfl⟩
  · simp [runPipeline]
  · simp [runPipeline, collectFutureErrors]

theorem c6_deterministic_idempotent_naming_witness :
    ((process_paper "T" (ExtractionResult.text "x") (fun _ => some "resp")
        DEMANDS).files.map Prod.fst =
      (((List.range 8).map (· + 1)).filter fun i =>
        ((fun _ => some "resp") i : Option String).isSome).map
        (resultPath "T")) ∧
    ((process_paper "T" (ExtractionResult.text "x") (fun _ => some "resp")
        DEMANDS).files.map Prod.fst).Nodup ∧
    ((List.range 8).map fun j => demandFileName (j + 1)) =
      ["demand_01.txt", "demand_02.txt", "demand_03.txt", "demand_04.txt",
       "demand_05.txt", "demand_06.txt", "demand_07.txt", "demand_08.txt"] :=
  c6_deterministic_idempotent_naming "T" "x" (fun _ => some "resp") (by decide)

end GenerateTXT

namespace Finalize

/-- Claim C8 — the bibliography entry of every paper is built from a
metadata lookup keyed by the paper title in which the first returned match
wins; whenever the lookup raises, returns no record, or returns a record
with no authors, the citation falls back to the "not found" stub containing
the paper title. -/
theorem c8_first_match_wins_and_fallback (t : String) (doc : MendeleyDoc)
    (rest : List MendeleyDoc) (m : PaperMeta) (h : m.authors = []) :
    search_mendeley t (LookupOutcome.ok (doc :: rest)) =
      search_mendeley t (LookupOutcome.ok [doc]) ∧
    search_mendeley t LookupOutcome.exn = none ∧
    search_mendeley t (LookupOutcome.ok []) = none ∧
    citationFor t none = t ++ " (metadata not found)." ∧
    citationFor t (some m) = t ++ " (metadata not found)." := by
  refine ⟨rfl, rfl, rfl, rfl, ?_⟩
  simp [citationFor, h]

theorem c8_first_match_wins_and_fallback_witness :
    search_mendeley "Paper X"
        (LookupOutcome.ok [MendeleyDoc.mk none none none none none,
          MendeleyDoc.mk (some "Other") none none none none]) =
      search_mendeley "Paper X"
        (LookupOutcome.ok [MendeleyDoc.mk none none none none none]) ∧
    search_mendeley "Paper X" LookupOutcome.exn = none ∧
    search_mendeley "Paper X" (LookupOutcome.ok []) = none ∧
    citationFor "Paper X" none = "Paper X" ++ " (metadata not found)." ∧
    citationFor "Paper X" (some (PaperMeta.mk "T" [] "1999" "J")) =
      "Paper X" ++ " (metadata not found)." :=
  c8_first_match_wins_and_fallback "Paper X"
    (MendeleyDoc.mk none none none none none)
    [MendeleyDoc.mk (some "Other") none none none none]
    (PaperMeta.mk "T" [] "1999" "J") rfl

/-- Claim C10 — `read_demand_files` is total over the result store: its key
set is exactly 1..8 in order; a missing result file `i` maps to the
placeholder `"*Missing demand i*"` and an existing file to its content; and
the generated report therefore always contains exactly eight subsections
per paper, regardless of partial failures. -/
theorem c10_read_demand_files_total (fs : String → Option String) (i : Nat)
    (h1 : 1 ≤ i) (h2 : i ≤ 8) :
    ((read_demand_files fs).map Prod.fst = [1, 2, 3, 4, 5, 6, 7, 8]) ∧
    (fs (GenerateTXT.demandFileName i) = none →
      (read_demand_files fs).lookup i =
        some ("*Missing demand " ++ toString i ++ "*")) ∧
    (∀ c, fs (GenerateTXT.demandFileName i) = some c →
      (read_demand_files fs).lookup i = some c) ∧
    (paperSubsections fs).length = 8 := by
  refine ⟨rfl, ?_, ?_, rfl⟩
  · intro hn
    interval_cases i <;> simp [read_demand_files, List.lookup, hn]
  · intro c hc
    interval_cases i <;> simp [read_demand_files, List.lookup, hc]

theorem c10_read_demand_files_total_witness :
    ((read_demand_files (fun _ => none)).map Prod.fst =
      [1, 2, 3, 4, 5, 6, 7, 8]) ∧
    ((fun _ => none : String → Option String)
        (GenerateTXT.demandFileName 3) = none →
      (read_demand_files (fun _ => none)).lookup 3 =
        some ("*Missing demand " ++ toString 3 ++ "*")) ∧
    (∀ c, (fun _ => none : String → Option String)
        (GenerateTXT.demandFileName 3) = some c →
      (read_demand_files (fun _ => none)).lookup 3 = some c) ∧
    (paperSubsections (fun _ => none)).length = 8 :=
  c10_read_demand_files_total (fun _ => none) 3 (by decide) (by decide)

end Finalize
